import Mathlib

/-!
# go-cyacd: verification of the protocol framing and programming sequencer

Shallow embedding of the go-cyacd library (Cypress/Infineon PSoC bootloader
host): the checksum engine (`protocol/checksum.go`), the frame codec
(`protocol/commands.go`, `protocol/responses.go`), the firmware-file row
parser (`cyacd/parser.go`), the functional-options configuration
(`bootloader/options.go`) and the programming sequencer
(`bootloader/programmer.go`).

Bytes are modelled as `Nat` values below 256; 8/16-bit wrap-around is made
explicit with `% 256` / `% 65536`.  Fallible Go functions returning
`(T, error)` become `Except`.  The duplex transport is modelled by a script:
a list of read results, one per transport interaction, consumed in order;
the frames the sequencer writes are accumulated in a trace so that temporal
claims ("no X command is ever sent") are statements about that trace.
-/

/-! ## Checksum Engine (`protocol/checksum.go`) -/

/-- `calculatePacketChecksum` of `protocol/checksum.go`: sum all input bytes
into a wrapping 16-bit accumulator, then return `1 + (0xFFFF XOR sum)` in
16-bit arithmetic (two's-complement negation). -/
def calculatePacketChecksum (data : List Nat) : Nat :=
  (1 + (65535 ^^^ (data.foldl (fun s b => (s + b) % 65536) 0))) % 65536

/-- `CalculateRowChecksum` of `protocol/checksum.go`: sum all bytes into a
wrapping 8-bit accumulator, return `^sum + 1` in 8-bit arithmetic. -/
def CalculateRowChecksum (data : List Nat) : Nat :=
  (1 + (255 ^^^ (data.foldl (fun s b => (s + b) % 256) 0))) % 256

/-- `CalculateRowChecksumWithMetadata` of `protocol/checksum.go`: the data
checksum plus array id plus both bytes of the row number and of the data
size, all 8-bit wrapping adds, no final negation. -/
def CalculateRowChecksumWithMetadata (dataChecksum arrayID rowNum dataSize : Nat) : Nat :=
  (dataChecksum + arrayID + rowNum / 256 % 256 + rowNum % 256
    + dataSize / 256 % 256 + dataSize % 256) % 256

/-- `calculateCRC16` of `protocol/checksum.go`: bit-by-bit CRC-16-CCITT,
polynomial 0x1021, initial value 0xFFFF, MSB first, no final XOR.  One
shift-and-conditionally-xor step of the inner loop. -/
def crc16Step (crc : Nat) : Nat :=
  if crc &&& 32768 ≠ 0 then ((crc * 2) ^^^ 4129) % 65536 else (crc * 2) % 65536

/-- The inner 8-iteration loop of `calculateCRC16`. -/
def crc16Byte (crc b : Nat) : Nat :=
  Nat.rec (motive := fun _ => Nat) ((crc ^^^ (b * 256 % 65536))) (fun _ c => crc16Step c) 8

/-- `calculateCRC16` of `protocol/checksum.go`. -/
def calculateCRC16 (data : List Nat) : Nat :=
  data.foldl crc16Byte 65535

/-! ### Arithmetic facts about the two sum-based checksums -/

/-- XOR with the all-ones mask below `2 ^ n` is subtraction from `2 ^ n - 1`. -/
theorem xor_mask_eq_sub (n : Nat) : ∀ s, s < 2 ^ n → (2 ^ n - 1) ^^^ s = 2 ^ n - 1 - s := by
  induction n with
  | zero =>
    intro s hs
    interval_cases s
    rfl
  | succ n ih =>
    intro s hs
    have hpow : 2 ^ (n + 1) = 2 * 2 ^ n := by rw [Nat.pow_succ]; ring
    have hpos : 0 < 2 ^ n := Nat.pos_pow_of_pos n (by norm_num)
    have hs2 : s / 2 < 2 ^ n := by omega
    have hmod : s % 2 < 2 := Nat.mod_lt _ (by norm_num)
    have hdiv : (2 ^ (n + 1) - 1) / 2 = 2 ^ n - 1 := by omega
    have hm2 : (2 ^ (n + 1) - 1) % 2 = 1 := by omega
    have hx2 : ((2 ^ (n + 1) - 1) ^^^ s) / 2 = (2 ^ n - 1) ^^^ (s / 2) := by
      rw [Nat.xor_div_two, hdiv]
    have hxm : ((2 ^ (n + 1) - 1) ^^^ s) % 2 = (1 + s) % 2 := by
      rw [Nat.xor_mod_two_eq]
      omega
    have hrec := ih (s / 2) hs2
    have hsplit := Nat.div_add_mod ((2 ^ (n + 1) - 1) ^^^ s) 2
    have hssplit := Nat.div_add_mod s 2
    rw [hx2, hrec] at hsplit
    have h1s : (1 + s) % 2 = 1 - s % 2 := by omega
    rw [hxm, h1s] at hsplit
    omega

/-- The wrapping fold used by both checksums agrees with the plain sum
modulo the word size. -/
theorem foldl_wrap_sum (m : Nat) (hm : 0 < m) (l : List Nat) :
    ∀ a, l.foldl (fun s b => (s + b) % m) (a % m) = (a + l.sum) % m := by
  induction l with
  | nil => intro a; simp
  | cons x xs ih =>
    intro a
    simp only [List.foldl_cons, List.sum_cons]
    rw [Nat.mod_add_mod, ih (a + x)]
    congr 1
    omega

/-- The wrapping accumulator stays below the word size. -/
theorem foldl_wrap_lt (m : Nat) (hm : 0 < m) (l : List Nat) :
    l.foldl (fun s b => (s + b) % m) 0 < m := by
  have h : l.foldl (fun s b => (s + b) % m) (0 % m) = (0 + l.sum) % m :=
    foldl_wrap_sum m hm l 0
  rw [Nat.zero_mod] at h
  rw [h]
  exact Nat.mod_lt _ hm

/-- C8.  For every byte sequence `b`, the sum of its bytes plus
`calculatePacketChecksum b` vanishes modulo `2 ^ 16`, and the sum of its
bytes plus `CalculateRowChecksum b` vanishes modulo 256: both checksums are
the two's-complement negation of the byte sum. -/
theorem packet_and_row_checksum_sum_to_zero (b : List Nat) (hb : ∀ x ∈ b, x < 256) :
    (b.sum + calculatePacketChecksum b) % 65536 = 0 ∧
    (b.sum + CalculateRowChecksum b) % 256 = 0 := by
  constructor
  · unfold calculatePacketChecksum
    have hlt : b.foldl (fun s x => (s + x) % 65536) 0 < 65536 :=
      foldl_wrap_lt 65536 (by norm_num) b
    have hsum : b.foldl (fun s x => (s + x) % 65536) 0 = b.sum % 65536 := by
      have h := foldl_wrap_sum 65536 (by norm_num) b 0
      simpa using h
    have hx : (65535 : Nat) ^^^ (b.foldl (fun s x => (s + x) % 65536) 0) =
        65535 - b.foldl (fun s x => (s + x) % 65536) 0 := by
      have := xor_mask_eq_sub 16 (b.foldl (fun s x => (s + x) % 65536) 0) (by norm_num at hlt ⊢; omega)
      norm_num at this
      exact this
    rw [hx, hsum]
    have h2 : b.sum % 65536 < 65536 := Nat.mod_lt _ (by norm_num)
    have h3 : b.sum % 65536 ≤ 65535 := by omega
    rw [Nat.add_mod b.sum]
    omega
  · unfold CalculateRowChecksum
    have hlt : b.foldl (fun s x => (s + x) % 256) 0 < 256 :=
      foldl_wrap_lt 256 (by norm_num) b
    have hsum : b.foldl (fun s x => (s + x) % 256) 0 = b.sum % 256 := by
      have h := foldl_wrap_sum 256 (by norm_num) b 0
      simpa using h
    have hx : (255 : Nat) ^^^ (b.foldl (fun s x => (s + x) % 256) 0) =
        255 - b.foldl (fun s x => (s + x) % 256) 0 := by
      have := xor_mask_eq_sub 8 (b.foldl (fun s x => (s + x) % 256) 0) (by norm_num at hlt ⊢; omega)
      norm_num at this
      exact this
    rw [hx, hsum]
    have h2 : b.sum % 256 < 256 := Nat.mod_lt _ (by norm_num)
    rw [Nat.add_mod b.sum]
    omega

/-- Witness for C8 at the concrete input of the spec's scenario 2. -/
theorem packet_and_row_checksum_sum_to_zero_witness :
    (∀ x ∈ [1, 2, 3, 4], x < 256) ∧
    (([1, 2, 3, 4].sum + calculatePacketChecksum [1, 2, 3, 4]) % 65536 = 0 ∧
     ([1, 2, 3, 4].sum + CalculateRowChecksum [1, 2, 3, 4]) % 256 = 0) :=
  ⟨by decide, packet_and_row_checksum_sum_to_zero [1, 2, 3, 4] (by decide)⟩

/-- Sanity: the spec's concrete scenario-2 value for the row checksum. -/
theorem CalculateRowChecksum_scenario2 : CalculateRowChecksum [1, 2, 3, 4] = 0xF6 := by decide

/-- Sanity: the spec's concrete scenario-2 value for the packet checksum
(an input that already carries the SOP byte). -/
theorem calculatePacketChecksum_scenario2 : calculatePacketChecksum [1, 0x38] = 0xFFC7 := by
  decide

/-! ## Frame constants (`protocol/constants.go`) -/

deriving instance DecidableEq for Except

/-- Go slice indexing `l[i]` on bytes, for indices known to be in bounds. -/
def byteAt (l : List Nat) (i : Nat) : Nat := l.getD i 0

def StartOfPacket : Nat := 0x01

def EndOfPacket : Nat := 0x17

def MinFrameSize : Nat := 7

def CmdEnterBootloader : Nat := 0x38

def CmdGetFlashSize : Nat := 0x32

def CmdProgramRow : Nat := 0x39

def CmdVerifyRow : Nat := 0x3A

def CmdVerifyChecksum : Nat := 0x31

def CmdSendData : Nat := 0x37

def CmdExitBootloader : Nat := 0x3B

def StatusSuccess : Nat := 0x00

def MaxDataSize : Nat := 256

def BootloaderKeySize : Nat := 6

/-! ## Command builders (`protocol/commands.go`)

Every builder appends `SOP`, the command byte, the 2-byte little-endian
payload length, the payload, then `calculatePacketChecksum` over
`frame[1:]` (the command byte, the length bytes and the payload — the SOP
byte is NOT part of the checksummed bytes in this code), the 2-byte
little-endian checksum and `EOP`.  `mkCmdFrame` is that shared assembly. -/

def mkCmdFrame (cmd : Nat) (payload : List Nat) : List Nat :=
  let body := cmd :: payload.length % 256 :: payload.length / 256 % 256 :: payload
  let ck := calculatePacketChecksum body
  (StartOfPacket :: body) ++ [ck % 256, ck / 256, EndOfPacket]

def BuildEnterBootloaderCmd (key : List Nat) : Except String (List Nat) :=
  if key.length ≠ BootloaderKeySize then .error "key must be exactly 6 bytes"
  else .ok (mkCmdFrame CmdEnterBootloader key)

def BuildGetFlashSizeCmd (arrayID : Nat) : Except String (List Nat) :=
  .ok (mkCmdFrame CmdGetFlashSize [arrayID])

def BuildProgramRowCmd (arrayID rowNum : Nat) (data : List Nat) : Except String (List Nat) :=
  if data.length = 0 then .error "data cannot be empty"
  else if MaxDataSize < data.length then .error "data length exceeds maximum"
  else .ok (mkCmdFrame CmdProgramRow ([arrayID, rowNum % 256, rowNum / 256 % 256] ++ data))

def BuildSendDataCmd (data : List Nat) : Except String (List Nat) :=
  if data.length = 0 then .error "data cannot be empty"
  else if MaxDataSize < data.length then .error "data length exceeds maximum"
  else .ok (mkCmdFrame CmdSendData data)

def BuildVerifyRowCmd (arrayID rowNum : Nat) : Except String (List Nat) :=
  .ok (mkCmdFrame CmdVerifyRow [arrayID, rowNum % 256, rowNum / 256 % 256])

def BuildVerifyChecksumCmd : Except String (List Nat) :=
  .ok (mkCmdFrame CmdVerifyChecksum [])

def BuildExitBootloaderCmd : Except String (List Nat) :=
  .ok (mkCmdFrame CmdExitBootloader [])

/-! ## Response parser (`protocol/responses.go`) -/

/-- The five validation failures of `ParseResponse`, in source order. -/
inductive RespError where
  | frameTooShort : RespError
  | invalidStartOfPacket : RespError
  | invalidEndOfPacket : RespError
  | frameLengthMismatch : RespError
  | checksumMismatch : RespError
deriving DecidableEq

/-- `ParseResponse` of `protocol/responses.go`: checks, in order, the
minimum size, the SOP byte, the EOP byte, the little-endian length field
at offset 2 against `int(MinFrameSize + dataLen) = len(frame)` — the Go
addition is performed on `uint16` (the untyped constant `MinFrameSize`
adopts `dataLen`'s type), hence the explicit wrap at `2 ^ 16` — and the
stored little-endian checksum against
`calculatePacketChecksum(frame[1:len-3])`; on success returns the status
byte `frame[1]` and the data slice `frame[4:4+dataLen]`. -/
def ParseResponse (frame : List Nat) : Except RespError (Nat × List Nat) :=
  if frame.length < MinFrameSize then .error .frameTooShort
  else if byteAt frame 0 ≠ StartOfPacket then .error .invalidStartOfPacket
  else if byteAt frame (frame.length - 1) ≠ EndOfPacket then .error .invalidEndOfPacket
  else if frame.length ≠ (MinFrameSize + (byteAt frame 2 + 256 * byteAt frame 3)) % 65536 then
    .error .frameLengthMismatch
  else if byteAt frame (frame.length - 3) + 256 * byteAt frame (frame.length - 2) ≠
      calculatePacketChecksum ((frame.drop 1).take (frame.length - 4)) then
    .error .checksumMismatch
  else .ok (byteAt frame 1, (frame.drop 4).take (byteAt frame 2 + 256 * byteAt frame 3))

/-! ## Typed response decoders (`protocol/responses.go`) -/

/-- The `invalid data length` decoder failure shared by all typed decoders. -/
inductive DecodeError where
  | invalidDataLength (op : String) (got expected : Nat) : DecodeError
deriving DecidableEq

structure DeviceInfo where
  SiliconID : Nat
  SiliconRev : Nat
  BootloaderVer : Nat × Nat × Nat
deriving DecidableEq

structure FlashSize where
  StartRow : Nat
  EndRow : Nat
deriving DecidableEq

/-- `ParseEnterBootloaderResponse`: 8 bytes, little-endian u32 silicon id,
revision byte, 3 version bytes. -/
def ParseEnterBootloaderResponse (data : List Nat) : Except DecodeError DeviceInfo :=
  if data.length ≠ 8 then .error (.invalidDataLength "Enter Bootloader" data.length 8)
  else .ok { SiliconID := data.getD 0 0 + 256 * data.getD 1 0 + 65536 * data.getD 2 0
                            + 16777216 * data.getD 3 0,
             SiliconRev := data.getD 4 0,
             BootloaderVer := (data.getD 5 0, data.getD 6 0, data.getD 7 0) }

/-- `ParseGetFlashSizeResponse`: 4 bytes, two little-endian u16 values. -/
def ParseGetFlashSizeResponse (data : List Nat) : Except DecodeError FlashSize :=
  if data.length ≠ 4 then .error (.invalidDataLength "Get Flash Size" data.length 4)
  else .ok { StartRow := data.getD 0 0 + 256 * data.getD 1 0,
             EndRow := data.getD 2 0 + 256 * data.getD 3 0 }

/-- `ParseVerifyRowResponse` of `protocol/responses.go` (strict): exactly
one data byte, returned as the row checksum. -/
def ParseVerifyRowResponse (data : List Nat) : Except DecodeError Nat :=
  if data.length ≠ 1 then .error (.invalidDataLength "Verify Row" data.length 1)
  else .ok (data.getD 0 0)

/-- Modelled from the spec: the lenient-verify-row compatibility decode
path.  The repository declares the `LenientVerifyRow` configuration toggle
(`WithLenientVerifyRow`) and its changelog documents
`ParseVerifyRowResponse(data, lenient bool)` — lenient mode accepts a
0-byte response as checksum 0 in addition to the strict 1-byte response —
but that decoder variant's implementation is not among the sources; only
the strict decoder is.  Faithful to the spec: "1 byte → checksum byte;
optionally 0 bytes accepted under a lenient compatibility mode, yielding
checksum 0". -/
def ParseVerifyRowResponseLenient (lenient : Bool) (data : List Nat) : Except DecodeError Nat :=
  if data.length = 1 then .ok (data.getD 0 0)
  else if lenient ∧ data.length = 0 then .ok 0
  else .error (.invalidDataLength "Verify Row" data.length 1)

/-- `ParseVerifyChecksumResponse`: 1 byte, nonzero means the application
checksum is valid. -/
def ParseVerifyChecksumResponse (data : List Nat) : Except DecodeError Bool :=
  if data.length ≠ 1 then .error (.invalidDataLength "Verify Checksum" data.length 1)
  else .ok (data.getD 0 0 ≠ 0)

/-! ## C1: the packet checksum field and the SOP byte -/

/-- C1 (falsified at a concrete input).  The frame built by
`BuildEnterBootloaderCmd` for the canonical 6-byte key carries a checksum
field equal to `calculatePacketChecksum` over the command byte, the length
bytes and the key — the SOP byte's value is NOT folded in — and that field
differs from the checksum over the SOP-prefixed bytes.  Likewise
`ParseResponse` accepts the frame whose stored checksum excludes SOP and
rejects the frame whose stored checksum includes SOP. -/
theorem buildCmd_checksum_field_excludes_sop :
    BuildEnterBootloaderCmd [10, 27, 44, 61, 78, 95] =
      .ok [1, 56, 6, 0, 10, 27, 44, 61, 78, 95, 135, 254, 23] ∧
    135 + 256 * 254 = calculatePacketChecksum [56, 6, 0, 10, 27, 44, 61, 78, 95] ∧
    135 + 256 * 254 ≠ calculatePacketChecksum [1, 56, 6, 0, 10, 27, 44, 61, 78, 95] ∧
    ParseResponse [1, 0, 4, 0, 1, 2, 3, 4, 242, 255, 23] = .ok (0, [1, 2, 3, 4]) ∧
    242 + 256 * 255 = calculatePacketChecksum [0, 4, 0, 1, 2, 3, 4] ∧
    ParseResponse [1, 0, 4, 0, 1, 2, 3, 4, 241, 255, 23] = .error .checksumMismatch ∧
    241 + 256 * 255 = calculatePacketChecksum [1, 0, 4, 0, 1, 2, 3, 4] := by
  refine ⟨by decide, by decide, by decide, by decide, by decide, by decide, by decide⟩

/-! ## C3: the response parser's checks, in order -/

/-- A 65536-byte frame whose 16-bit length field holds 65529: SOP, EOP and
the claim's plain `7 + length = len(frame)` equation all hold, yet the
`uint16` addition in `int(MinFrameSize + dataLen)` wraps to 0. -/
def wrapFrame : List Nat := [1, 0, 249, 255] ++ List.replicate 65529 0 ++ [8, 254, 23]

/-- C3 (falsified at a concrete input).  On the 65536-byte frame whose
length field holds 65529, every condition of the claim's acceptance
clause can be satisfied up to the length check — and the claim's own
length equation `7 + length = len(frame)` HOLDS — yet `ParseResponse`
rejects with `FrameLengthMismatch`, because the Go code compares
`len(frame)` against the `uint16`-wrapped `int(MinFrameSize + dataLen)`,
which is 0 here. -/
theorem ParseResponse_wraplen_counterexample :
    wrapFrame.length = 65536 ∧
    byteAt wrapFrame 0 = 1 ∧
    byteAt wrapFrame (wrapFrame.length - 1) = 0x17 ∧
    7 + (byteAt wrapFrame 2 + 256 * byteAt wrapFrame 3) = wrapFrame.length ∧
    ParseResponse wrapFrame = .error .frameLengthMismatch := by
  have hlen : wrapFrame.length = 65536 := by
    unfold wrapFrame
    rw [List.length_append, List.length_append, List.length_replicate]
    rfl
  have hb0 : byteAt wrapFrame 0 = 1 := rfl
  have hb2 : byteAt wrapFrame 2 = 249 := rfl
  have hb3 : byteAt wrapFrame 3 = 255 := rfl
  have hlast : byteAt wrapFrame (wrapFrame.length - 1) = 0x17 := by
    rw [hlen]
    show byteAt wrapFrame 65535 = 0x17
    unfold byteAt wrapFrame
    rw [List.getD_eq_getElem?_getD,
      @List.getElem?_append_right _ ([1, 0, 249, 255] ++ List.replicate 65529 0)
        [8, 254, 23] 65535 (by rw [List.length_append, List.length_replicate]; norm_num),
      show ([1, 0, 249, 255] ++ List.replicate 65529 0 : List Nat).length = 65533 by
        rw [List.length_append, List.length_replicate]
        rfl]
    rfl
  refine ⟨hlen, hb0, hlast, by rw [hb2, hb3, hlen], ?_⟩
  unfold ParseResponse StartOfPacket EndOfPacket MinFrameSize
  rw [if_neg (by rw [hlen]; norm_num), if_neg (not_not_intro hb0),
    if_neg (not_not_intro hlast), if_pos (by rw [hb2, hb3, hlen]; norm_num)]

/-- C3 (amended: the length check wraps at `2 ^ 16`).  `ParseResponse`
succeeds exactly on frames of at least 7 bytes with SOP first, EOP last,
`(7 + length-field) mod 2 ^ 16 = len(frame)` — the 7-byte overhead is
added to the 16-bit length field in `uint16` arithmetic — and a stored
checksum matching `calculatePacketChecksum(frame[1:len-3])`, returning
the status byte `frame[1]` and the data slice; each malformed frame fails
with the error of the first violated check, in the order too-short, bad
SOP, bad EOP, length mismatch, checksum mismatch. -/
theorem ParseResponse_spec (frame : List Nat) :
    (frame.length < 7 → ParseResponse frame = .error .frameTooShort) ∧
    (7 ≤ frame.length → byteAt frame 0 ≠ 1 →
      ParseResponse frame = .error .invalidStartOfPacket) ∧
    (7 ≤ frame.length → byteAt frame 0 = 1 → byteAt frame (frame.length - 1) ≠ 0x17 →
      ParseResponse frame = .error .invalidEndOfPacket) ∧
    (7 ≤ frame.length → byteAt frame 0 = 1 → byteAt frame (frame.length - 1) = 0x17 →
      (7 + (byteAt frame 2 + 256 * byteAt frame 3)) % 65536 ≠ frame.length →
      ParseResponse frame = .error .frameLengthMismatch) ∧
    (7 ≤ frame.length → byteAt frame 0 = 1 → byteAt frame (frame.length - 1) = 0x17 →
      (7 + (byteAt frame 2 + 256 * byteAt frame 3)) % 65536 = frame.length →
      byteAt frame (frame.length - 3) + 256 * byteAt frame (frame.length - 2) ≠
        calculatePacketChecksum ((frame.drop 1).take (frame.length - 4)) →
      ParseResponse frame = .error .checksumMismatch) ∧
    (7 ≤ frame.length → byteAt frame 0 = 1 → byteAt frame (frame.length - 1) = 0x17 →
      (7 + (byteAt frame 2 + 256 * byteAt frame 3)) % 65536 = frame.length →
      byteAt frame (frame.length - 3) + 256 * byteAt frame (frame.length - 2) =
        calculatePacketChecksum ((frame.drop 1).take (frame.length - 4)) →
      ParseResponse frame =
        .ok (byteAt frame 1, (frame.drop 4).take (byteAt frame 2 + 256 * byteAt frame 3))) := by
  unfold ParseResponse StartOfPacket EndOfPacket MinFrameSize
  refine ⟨?_, ?_, ?_, ?_, ?_, ?_⟩
  · intro h
    rw [if_pos h]
  · intro h1 h2
    rw [if_neg (Nat.not_lt.mpr h1), if_pos h2]
  · intro h1 h2 h3
    rw [if_neg (Nat.not_lt.mpr h1), if_neg (not_not_intro h2), if_pos h3]
  · intro h1 h2 h3 h4
    rw [if_neg (Nat.not_lt.mpr h1), if_neg (not_not_intro h2), if_neg (not_not_intro h3),
      if_pos (Ne.symm h4)]
  · intro h1 h2 h3 h4 h5
    rw [if_neg (Nat.not_lt.mpr h1), if_neg (not_not_intro h2), if_neg (not_not_intro h3),
      if_neg (not_not_intro h4.symm), if_pos h5]
  · intro h1 h2 h3 h4 h5
    rw [if_neg (Nat.not_lt.mpr h1), if_neg (not_not_intro h2), if_neg (not_not_intro h3),
      if_neg (not_not_intro h4.symm), if_neg (not_not_intro h5)]

/-- Witness for C3: a concrete well-formed 4-byte-data response frame is
accepted with its status byte and data slice. -/
theorem ParseResponse_spec_witness :
    ParseResponse [1, 0, 4, 0, 1, 2, 3, 4, 242, 255, 23] = .ok (0, [1, 2, 3, 4]) := by
  have h := (ParseResponse_spec [1, 0, 4, 0, 1, 2, 3, 4, 242, 255, 23]).2.2.2.2.2
  exact h (by decide) (by decide) (by decide) (by decide) (by decide)

/-! ## C7: the VerifyRow response decoder, strict and lenient -/

/-- C7.  The strict `ParseVerifyRowResponse` accepts exactly a 1-byte
payload, returning the byte as the checksum, and any other length fails
with an invalid-data-length error; the lenient compatibility mode also
accepts a 0-byte payload as checksum 0, fails every length other than 0
and 1, and coincides with the strict decoder when disabled. -/
theorem verifyRow_decoder_spec :
    (∀ b : Nat, ParseVerifyRowResponse [b] = .ok b) ∧
    (∀ d : List Nat, d.length ≠ 1 →
      ParseVerifyRowResponse d = .error (.invalidDataLength "Verify Row" d.length 1)) ∧
    (∀ b : Nat, ParseVerifyRowResponseLenient true [b] = .ok b) ∧
    (ParseVerifyRowResponseLenient true [] = .ok 0) ∧
    (∀ d : List Nat, 2 ≤ d.length →
      ParseVerifyRowResponseLenient true d =
        .error (.invalidDataLength "Verify Row" d.length 1)) ∧
    (∀ d : List Nat, ParseVerifyRowResponseLenient false d = ParseVerifyRowResponse d) := by
  refine ⟨?_, ?_, ?_, ?_, ?_, ?_⟩
  · intro b; rfl
  · intro d h; simp [ParseVerifyRowResponse, h]
  · intro b; rfl
  · rfl
  · intro d h
    have h1 : d.length ≠ 1 := by omega
    have h0 : d.length ≠ 0 := by omega
    simp [ParseVerifyRowResponseLenient, h1, h0]
  · intro d
    unfold ParseVerifyRowResponseLenient ParseVerifyRowResponse
    by_cases h : d.length = 1 <;> simp [h]

/-- Witness for C7 at concrete payloads. -/
theorem verifyRow_decoder_spec_witness :
    ParseVerifyRowResponse [0xAB] = .ok 0xAB ∧
    ParseVerifyRowResponse [1, 2] = .error (.invalidDataLength "Verify Row" 2 1) ∧
    ParseVerifyRowResponseLenient true [] = .ok 0 ∧
    ParseVerifyRowResponseLenient true [9, 9, 9] =
      .error (.invalidDataLength "Verify Row" 3 1) := by
  have h := verifyRow_decoder_spec
  exact ⟨h.1 0xAB, h.2.1 [1, 2] (by decide), h.2.2.2.1, h.2.2.2.2.1 [9, 9, 9] (by decide)⟩

/-! ## Firmware rows and the row parser (`cyacd/types.go`, `cyacd/parser.go`) -/

/-- `cyacd.Row`: one flash row as parsed from a `.cyacd` file. -/
structure Row where
  ArrayID : Nat
  RowNum : Nat
  Size : Nat
  Data : List Nat
  Checksum : Nat
deriving DecidableEq

/-- `cyacd.Firmware`: header fields plus the rows in file order. -/
structure Firmware where
  SiliconID : Nat
  SiliconRev : Nat
  ChecksumType : Nat
  Rows : List Row
deriving DecidableEq

/-- The row-level parse failures of `cyacd/parser.go`, in source order:
too few hex characters, `hex.DecodeString` failure, too few decoded bytes,
decoded length differing from `5 + dataLen + 1`, and row checksum
disagreement. -/
inductive RowError where
  | rowTooShort : RowError
  | invalidHexData : RowError
  | rowDataTooShort : RowError
  | dataLengthMismatch : RowError
  | checksumMismatch : RowError
deriving DecidableEq

/-- One hex digit as in Go's `encoding/hex` (`fromHexChar` compares the
byte against the ranges 0-9, a-f, A-F). -/
def hexVal (c : Char) : Option Nat :=
  if 48 ≤ c.toNat ∧ c.toNat ≤ 57 then some (c.toNat - 48)
  else if 97 ≤ c.toNat ∧ c.toNat ≤ 102 then some (c.toNat - 87)
  else if 65 ≤ c.toNat ∧ c.toNat ≤ 70 then some (c.toNat - 55)
  else none

/-- Go's `hex.DecodeString`: pairs of hex digits; fails on an odd length or
a non-hex character. -/
def hexDecode : List Char → Option (List Nat)
  | [] => some []
  | [_] => none
  | c1 :: c2 :: rest =>
    match hexVal c1 with
    | none => none
    | some h =>
      match hexVal c2 with
      | none => none
      | some l =>
        match hexDecode rest with
        | none => none
        | some bs => some ((16 * h + l) :: bs)

/-- `parseRow` of `cyacd/parser.go`: needs at least `MinimumRowLength = 12`
hex characters and `MinimumRowDataBytes = 6` decoded bytes; reads
`arrayID`, little-endian `rowNum` and `dataLen`; requires the decoded
length to equal `RowHeaderSize(5) + RowChecksumSize(1) + dataLen` — an
addition Go performs on `uint16` (the untyped constants adopt `dataLen`'s
type), hence the explicit wrap at `2 ^ 16`; and
requires the trailing checksum byte to equal `calculateRowChecksum` over
`data[:len(data)-1]`, i.e. over the five metadata bytes AND the row data
(the local `calculateRowChecksum` of `cyacd/parser.go` is the same
sum-and-negate computation as `CalculateRowChecksum`). -/
def parseRow (line : List Char) : Except RowError Row :=
  if line.length < 12 then .error .rowTooShort
  else match hexDecode line with
  | none => .error .invalidHexData
  | some data =>
    if data.length < 6 then .error .rowDataTooShort
    else if data.length ≠ (5 + 1 + (byteAt data 3 + 256 * byteAt data 4)) % 65536 then
      .error .dataLengthMismatch
    else if byteAt data (data.length - 1) ≠ CalculateRowChecksum (data.take (data.length - 1)) then
      .error .checksumMismatch
    else .ok { ArrayID := byteAt data 0,
               RowNum := byteAt data 1 + 256 * byteAt data 2,
               Size := byteAt data 3 + 256 * byteAt data 4,
               Data := (data.drop 5).take (byteAt data 3 + 256 * byteAt data 4),
               Checksum := byteAt data (data.length - 1) }

/-- A decoded hex digit is below 16. -/
theorem hexVal_lt16 {c : Char} {v : Nat} (h : hexVal c = some v) : v < 16 := by
  unfold hexVal at h
  split_ifs at h with h1 h2 h3
  · cases h
    omega
  · cases h
    omega
  · cases h
    omega

/-- Every byte produced by `hexDecode` is below 256 (strong induction on
the line length). -/
theorem hexDecode_bytes_lt_aux (n : Nat) : ∀ (line : List Char) (bytes : List Nat),
    line.length ≤ n → hexDecode line = some bytes → ∀ b ∈ bytes, b < 256 := by
  induction n with
  | zero =>
    intro line bytes hl h b hb
    cases line with
    | nil =>
      unfold hexDecode at h
      cases h
      cases hb
    | cons c cs => simp at hl
  | succ n ih =>
    intro line bytes hl h b hb
    match line with
    | [] =>
      unfold hexDecode at h
      cases h
      cases hb
    | [c] =>
      unfold hexDecode at h
      cases h
    | c1 :: c2 :: rest =>
      unfold hexDecode at h
      cases hv1 : hexVal c1 with
      | none => rw [hv1] at h; simp at h
      | some v1 =>
        rw [hv1] at h
        dsimp only at h
        cases hv2 : hexVal c2 with
        | none => rw [hv2] at h; simp at h
        | some v2 =>
          rw [hv2] at h
          dsimp only at h
          cases hd : hexDecode rest with
          | none => rw [hd] at h; simp at h
          | some bs =>
            rw [hd] at h
            dsimp only at h
            cases h
            cases hb with
            | head =>
              have b1 := hexVal_lt16 hv1
              have b2 := hexVal_lt16 hv2
              omega
            | tail _ hb2 =>
              have hrest : rest.length ≤ n := by
                simp only [List.length_cons] at hl
                omega
              exact ih rest bs hrest hd b hb2

/-- Every byte produced by `hexDecode` is below 256. -/
theorem hexDecode_bytes_lt {line : List Char} {bytes : List Nat}
    (h : hexDecode line = some bytes) : ∀ b ∈ bytes, b < 256 :=
  hexDecode_bytes_lt_aux line.length line bytes (Nat.le_refl _) h

/-- Indexing a list of bytes yields a byte (the out-of-range default is
0). -/
theorem byteAt_lt (l : List Nat) (h : ∀ b ∈ l, b < 256) : ∀ i, byteAt l i < 256 := by
  induction l with
  | nil =>
    intro i
    unfold byteAt
    simp [List.getD]
  | cons x xs ih =>
    intro i
    cases i with
    | zero =>
      unfold byteAt
      rw [List.getD_cons_zero]
      exact h x (List.mem_cons_self x xs)
    | succ n =>
      unfold byteAt
      rw [List.getD_cons_succ]
      exact ih (fun b hb => h b (List.mem_cons_of_mem x hb)) n

/-! ## C2: the row checksum covers the metadata bytes, not the data alone -/

/-- C2 (falsified at a concrete input).  The spec's own scenario-1 row is
accepted by `parseRow` with stored checksum byte 0xF2, which is the row
checksum over the five metadata bytes and the data together — while the
row checksum of the data alone is 0xF6 ≠ 0xF2. -/
theorem parseRow_counterexample_checksum_covers_metadata :
    parseRow "000000040001020304F2".toList =
      .ok { ArrayID := 0, RowNum := 0, Size := 4, Data := [1, 2, 3, 4], Checksum := 0xF2 } ∧
    CalculateRowChecksum [0, 0, 0, 4, 0, 1, 2, 3, 4] = 0xF2 ∧
    CalculateRowChecksum [1, 2, 3, 4] = 0xF6 ∧ (0xF2 : Nat) ≠ 0xF6 := by
  refine ⟨by decide, by decide, by decide, by decide⟩

/-- C2 (amended).  For a row line whose hex decode and length fields are
structurally valid (the length comparison wraps at `2 ^ 16` exactly as the
parser's own `uint16` addition does), `parseRow` accepts exactly when the
trailing stored
checksum byte equals the row checksum recomputed over everything except
that trailing byte — the five metadata bytes (array id, row number, data
length) followed by the data — and the accepted row stores exactly that
byte; on disagreement it rejects with the checksum-mismatch error. -/
theorem parseRow_checksum_spec (line : List Char) (bytes : List Nat)
    (hdec : hexDecode line = some bytes)
    (hlen : 12 ≤ line.length)
    (hblen : 6 ≤ bytes.length)
    (hexp : bytes.length = (5 + 1 + (byteAt bytes 3 + 256 * byteAt bytes 4)) % 65536) :
    (bytes.take (bytes.length - 1) =
      bytes.take 5 ++ (bytes.drop 5).take (byteAt bytes 3 + 256 * byteAt bytes 4)) ∧
    (byteAt bytes (bytes.length - 1) =
        CalculateRowChecksum (bytes.take (bytes.length - 1)) →
      parseRow line =
        .ok { ArrayID := byteAt bytes 0,
              RowNum := byteAt bytes 1 + 256 * byteAt bytes 2,
              Size := byteAt bytes 3 + 256 * byteAt bytes 4,
              Data := (bytes.drop 5).take (byteAt bytes 3 + 256 * byteAt bytes 4),
              Checksum := byteAt bytes (bytes.length - 1) }) ∧
    (byteAt bytes (bytes.length - 1) ≠
        CalculateRowChecksum (bytes.take (bytes.length - 1)) →
      parseRow line = .error .checksumMismatch) ∧
    (∀ r, parseRow line = .ok r →
      r.Checksum = CalculateRowChecksum (bytes.take (bytes.length - 1))) := by
  have hb3 : byteAt bytes 3 < 256 := byteAt_lt bytes (hexDecode_bytes_lt hdec) 3
  have hb4 : byteAt bytes 4 < 256 := byteAt_lt bytes (hexDecode_bytes_lt hdec) 4
  have hlen6 : bytes.length = 6 + (byteAt bytes 3 + 256 * byteAt bytes 4) := by omega
  have htake : bytes.take (bytes.length - 1) =
      bytes.take 5 ++ (bytes.drop 5).take (byteAt bytes 3 + 256 * byteAt bytes 4) := by
    have h5 : bytes.take (bytes.length - 1) =
        bytes.take (5 + (byteAt bytes 3 + 256 * byteAt bytes 4)) := by
      rw [hlen6]
      congr 1
      omega
    rw [h5, List.take_add, List.take_drop]
  refine ⟨htake, ?_, ?_, ?_⟩
  · intro hck
    unfold parseRow
    rw [hdec]
    dsimp only
    rw [if_neg (Nat.not_lt.mpr hlen), if_neg (Nat.not_lt.mpr hblen),
      if_neg (not_not_intro hexp), if_neg (not_not_intro hck)]
  · intro hck
    unfold parseRow
    rw [hdec]
    dsimp only
    rw [if_neg (Nat.not_lt.mpr hlen), if_neg (Nat.not_lt.mpr hblen),
      if_neg (not_not_intro hexp), if_pos hck]
  · intro r hr
    unfold parseRow at hr
    rw [hdec] at hr
    dsimp only at hr
    rw [if_neg (Nat.not_lt.mpr hlen), if_neg (Nat.not_lt.mpr hblen),
      if_neg (not_not_intro hexp)] at hr
    by_cases hck : byteAt bytes (bytes.length - 1) =
        CalculateRowChecksum (bytes.take (bytes.length - 1))
    · rw [if_neg (not_not_intro hck)] at hr
      cases hr
      exact hck
    · rw [if_pos hck] at hr
      cases hr

/-- Witness for the amended C2 at the spec's scenario-1 row. -/
theorem parseRow_checksum_spec_witness :
    parseRow "000000040001020304F2".toList =
      .ok { ArrayID := 0, RowNum := 0, Size := 4, Data := [1, 2, 3, 4], Checksum := 242 } := by
  have h := (parseRow_checksum_spec "000000040001020304F2".toList
    [0, 0, 0, 4, 0, 1, 2, 3, 4, 242] (by decide) (by decide) (by decide) (by decide)).2.1
  exact h (by decide)

/-! ## Configuration and functional options (`bootloader/options.go`)

`ProgressCallback` and `Logger` are capability fields with no effect on
the wire traffic; the options that set them are modelled as the identity
on the remaining fields. -/

structure Config where
  ReadTimeout : Int
  WriteTimeout : Int
  ChunkSize : Int
  Retries : Int
  VerifyAfterProgram : Bool
deriving DecidableEq

/-- `defaultConfig` of `bootloader/options.go`: 5s timeouts, chunk size 57
(64-byte packet minus 7-byte overhead), 3 retries, verification on. -/
def defaultConfig : Config :=
  { ReadTimeout := 5000000000, WriteTimeout := 5000000000,
    ChunkSize := 57, Retries := 3, VerifyAfterProgram := true }

/-- The functional options of `bootloader/options.go` that touch modelled
fields; `WithProgressCallback` and `WithLogger` only set the capability
fields. -/
inductive ConfigOption where
  | withTimeout (t : Int) : ConfigOption
  | withReadTimeout (t : Int) : ConfigOption
  | withWriteTimeout (t : Int) : ConfigOption
  | withChunkSize (size : Int) : ConfigOption
  | withRetries (retries : Int) : ConfigOption
  | withVerifyAfterProgram (verify : Bool) : ConfigOption
  | withProgressCallbackOrLogger : ConfigOption
deriving DecidableEq

/-- The body of each `Option` closure of `bootloader/options.go`;
`WithChunkSize` only stores sizes in `1..256` and `WithRetries` only
non-negative counts, silently keeping the previous value otherwise. -/
def applyOption (c : Config) : ConfigOption → Config
  | .withTimeout t => { c with ReadTimeout := t, WriteTimeout := t }
  | .withReadTimeout t => { c with ReadTimeout := t }
  | .withWriteTimeout t => { c with WriteTimeout := t }
  | .withChunkSize size => if 0 < size ∧ size ≤ 256 then { c with ChunkSize := size } else c
  | .withRetries r => if 0 ≤ r then { c with Retries := r } else c
  | .withVerifyAfterProgram v => { c with VerifyAfterProgram := v }
  | .withProgressCallbackOrLogger => c

/-- `New` of `bootloader/programmer.go` restricted to its configuration
effect: start from `defaultConfig` and apply each option in order. -/
def New (opts : List ConfigOption) : Config := opts.foldl applyOption defaultConfig

/-- Applying any option keeps the chunk size inside `1..256`. -/
theorem applyOption_chunkSize_bounds (c : Config) (o : ConfigOption)
    (h1 : 1 ≤ c.ChunkSize) (h2 : c.ChunkSize ≤ 256) :
    1 ≤ (applyOption c o).ChunkSize ∧ (applyOption c o).ChunkSize ≤ 256 := by
  cases o with
  | withChunkSize size =>
    simp only [applyOption]
    by_cases h : 0 < size ∧ size ≤ 256
    · rw [if_pos h]
      exact ⟨h.1, h.2⟩
    · rw [if_neg h]
      exact ⟨h1, h2⟩
  | withRetries r =>
    simp only [applyOption]
    by_cases h : (0 : Int) ≤ r
    · rw [if_pos h]; exact ⟨h1, h2⟩
    · rw [if_neg h]; exact ⟨h1, h2⟩
  | withTimeout t => exact ⟨h1, h2⟩
  | withReadTimeout t => exact ⟨h1, h2⟩
  | withWriteTimeout t => exact ⟨h1, h2⟩
  | withVerifyAfterProgram v => exact ⟨h1, h2⟩
  | withProgressCallbackOrLogger => exact ⟨h1, h2⟩

/-- Folding options keeps the chunk size inside `1..256`. -/
theorem foldl_applyOption_chunkSize_bounds (opts : List ConfigOption) :
    ∀ c : Config, 1 ≤ c.ChunkSize → c.ChunkSize ≤ 256 →
      1 ≤ (opts.foldl applyOption c).ChunkSize ∧ (opts.foldl applyOption c).ChunkSize ≤ 256 := by
  induction opts with
  | nil => intro c h1 h2; exact ⟨h1, h2⟩
  | cons o rest ih =>
    intro c h1 h2
    have h := applyOption_chunkSize_bounds c o h1 h2
    exact ih (applyOption c o) h.1 h.2

/-- C10.  Every configuration produced by `New` has a chunk size in
`1..256`: the default is 57, and `WithChunkSize` silently leaves the
previous value unchanged whenever the requested size is not positive or
exceeds 256. -/
theorem New_chunkSize_invariant :
    defaultConfig.ChunkSize = 57 ∧
    (∀ opts : List ConfigOption,
      1 ≤ (New opts).ChunkSize ∧ (New opts).ChunkSize ≤ 256) ∧
    (∀ (c : Config) (size : Int), ¬(0 < size ∧ size ≤ 256) →
      applyOption c (.withChunkSize size) = c) := by
  refine ⟨rfl, ?_, ?_⟩
  · intro opts
    exact foldl_applyOption_chunkSize_bounds opts defaultConfig (by decide) (by decide)
  · intro c size h
    simp only [applyOption]
    rw [if_neg h]

/-- Witness for C10: chunk size 300 is silently ignored, 0 is silently
ignored, and the resulting configuration keeps the default 57. -/
theorem New_chunkSize_invariant_witness :
    defaultConfig.ChunkSize = 57 ∧
    (1 ≤ (New [.withChunkSize 300, .withChunkSize 0]).ChunkSize ∧
      (New [.withChunkSize 300, .withChunkSize 0]).ChunkSize ≤ 256) ∧
    applyOption defaultConfig (.withChunkSize 300) = defaultConfig := by
  have h := New_chunkSize_invariant
  exact ⟨h.1, h.2.1 [.withChunkSize 300, .withChunkSize 0],
    h.2.2 defaultConfig 300 (by decide)⟩

/-! ## The programming sequencer (`bootloader/programmer.go`)

The duplex transport (`io.ReadWriter`) is modelled by a script of read
results, one entry per transport interaction: a `sendCommand` write-only
interaction or a `sendCommandWithResponse` write-and-read round trip each
consume one entry.  `.error m` is an I/O failure of that interaction,
`.ok raw` the raw bytes the read returned.  Every frame the sequencer
writes is appended to `sent`, so temporal claims are statements about that
trace.  The context is modelled as never cancelled and the inter-command
delay as a no-op: neither touches the transport. -/

structure SState where
  script : List (Except String (List Nat))
  sent : List (List Nat)
deriving DecidableEq

/-- The sequencer-level failures of `bootloader/programmer.go` and its
typed error values (`bootloader/errors.go`). -/
inductive ProgError where
  | invalidKey : ProgError
  | buildError (msg : String) : ProgError
  | transport (msg : String) : ProgError
  | parseFailure (e : RespError) : ProgError
  | protocolError (op : String) (statusCode : Nat) : ProgError
  | decodeFailure (e : DecodeError) : ProgError
  | deviceMismatch (expected actual : Nat) : ProgError
  | rowOutOfRange (arrayID rowNum minRow maxRow : Nat) : ProgError
  | checksumMismatchError (rowNum expected actual : Nat) : ProgError
  | verificationError : ProgError
deriving DecidableEq

/-- The HID frame extraction of `sendCommandWithResponse`: skip a report-id
byte when byte 0 is not SOP but byte 1 is, re-check SOP, read the length
field (`int(MinFrameSize + dataLen)` is again a `uint16` addition, hence
the wrap), check the buffer holds the whole frame and that it ends in EOP,
and return exactly the protocol frame. -/
def extractFrame (response : List Nat) : Except String (List Nat) :=
  if response.length < MinFrameSize then .error "response too short"
  else
    let offset := if byteAt response 0 ≠ StartOfPacket ∧ MinFrameSize < response.length ∧
        byteAt response 1 = StartOfPacket then 1 else 0
    if byteAt response offset ≠ StartOfPacket then .error "invalid start of packet"
    else
      let frameSize :=
        (MinFrameSize + (byteAt response (offset + 2) + 256 * byteAt response (offset + 3))) % 65536
      if response.length < offset + frameSize then .error "incomplete frame"
      else if byteAt response (offset + frameSize - 1) ≠ EndOfPacket then
        .error "invalid end of packet"
      else .ok ((response.drop offset).take frameSize)

/-- `sendCommandWithResponse`: write the frame, then read and HID-extract
the response; consumes one script entry. -/
def sendCommandWithResponse (cmd : List Nat) (st : SState) :
    SState × Except ProgError (List Nat) :=
  match st.script with
  | [] => ({ script := [], sent := st.sent ++ [cmd] }, .error (.transport "read response: EOF"))
  | e :: rest =>
    ({ script := rest, sent := st.sent ++ [cmd] },
      match e with
      | .error m => .error (.transport m)
      | .ok raw =>
        match extractFrame raw with
        | .error m => .error (.transport m)
        | .ok frame => .ok frame)

/-- `sendCommand`: fire-and-forget write; consumes one script entry whose
error is a write failure. -/
def sendCommand (cmd : List Nat) (st : SState) : SState × Except ProgError Unit :=
  match st.script with
  | [] => ({ script := [], sent := st.sent ++ [cmd] }, .error (.transport "write: EOF"))
  | e :: rest =>
    ({ script := rest, sent := st.sent ++ [cmd] },
      match e with
      | .error m => .error (.transport m)
      | .ok _ => .ok ())

/-- The round trip every command-with-response performs in
`bootloader/programmer.go`: send, parse the response, require status
`StatusSuccess`, return the data payload. -/
def roundTrip (op : String) (cmd : List Nat) (st : SState) :
    SState × Except ProgError (List Nat) :=
  match sendCommandWithResponse cmd st with
  | (st1, .error e) => (st1, .error e)
  | (st1, .ok frame) =>
    match ParseResponse frame with
    | .error e => (st1, .error (.parseFailure e))
    | .ok (statusCode, data) =>
      if statusCode ≠ StatusSuccess then (st1, .error (.protocolError op statusCode))
      else (st1, .ok data)

/-- `Programmer.EnterBootloader`: build, round-trip, decode `DeviceInfo`. -/
def EnterBootloaderStep (key : List Nat) (st : SState) :
    SState × Except ProgError DeviceInfo :=
  match BuildEnterBootloaderCmd key with
  | .error m => (st, .error (.buildError m))
  | .ok cmd =>
    match roundTrip "enter bootloader" cmd st with
    | (st1, .error e) => (st1, .error e)
    | (st1, .ok data) =>
      match ParseEnterBootloaderResponse data with
      | .error e => (st1, .error (.decodeFailure e))
      | .ok info => (st1, .ok info)

/-- `Programmer.GetFlashSize`: build, round-trip, decode `FlashSize`. -/
def GetFlashSizeStep (arrayID : Nat) (st : SState) :
    SState × Except ProgError FlashSize :=
  match BuildGetFlashSizeCmd arrayID with
  | .error m => (st, .error (.buildError m))
  | .ok cmd =>
    match roundTrip "get flash size" cmd st with
    | (st1, .error e) => (st1, .error e)
    | (st1, .ok data) =>
      match ParseGetFlashSizeResponse data with
      | .error e => (st1, .error (.decodeFailure e))
      | .ok fs => (st1, .ok fs)

/-- `Programmer.sendData`: build a SendData frame and fire-and-forget. -/
def sendDataStep (data : List Nat) (st : SState) : SState × Except ProgError Unit :=
  match BuildSendDataCmd data with
  | .error m => (st, .error (.buildError m))
  | .ok cmd => sendCommand cmd st

/-- The chunking loop of `programRow`: while the remaining data is longer
than the chunk size, send a `chunkSize`-byte prefix and drop it; return
the remainder.  For `chunkSize = 0` the Go loop would call `sendData` with
an empty chunk, which `BuildSendDataCmd` rejects before any write, and for
a negative `chunkSize` the Go slice expression `data[:chunkSize]` faults;
both are modelled as the empty-chunk build error and are unreachable from
any `New`-produced configuration (chunk size is always `1..256`). -/
def sendChunksLoop (chunkSize : Int) (data : List Nat) (st : SState) :
    SState × Except ProgError (List Nat) :=
  if h : chunkSize < (data.length : Int) then
    if hpos : 0 < chunkSize then
      match sendDataStep (data.take chunkSize.toNat) st with
      | (st1, .error e) => (st1, .error e)
      | (st1, .ok _) => sendChunksLoop chunkSize (data.drop chunkSize.toNat) st1
    else (st, .error (.buildError "data cannot be empty"))
  else (st, .ok data)
termination_by data.length
decreasing_by
  rw [List.length_drop]
  omega

/-- `Programmer.programRow`: chunk, then build and round-trip the final
ProgramRow command (its `ProtocolError` carries no operation name in the
source). -/
def programRowStep (cfg : Config) (row : Row) (st : SState) :
    SState × Except ProgError Unit :=
  match sendChunksLoop cfg.ChunkSize row.Data st with
  | (st1, .error e) => (st1, .error e)
  | (st1, .ok remainder) =>
    match BuildProgramRowCmd row.ArrayID row.RowNum remainder with
    | .error m => (st1, .error (.buildError m))
    | .ok cmd =>
      match roundTrip "" cmd st1 with
      | (st2, .error e) => (st2, .error e)
      | (st2, .ok _) => (st2, .ok ())

/-- `Programmer.verifyRow`: round-trip VerifyRow, decode the checksum byte
(strict decoder), compare against
`CalculateRowChecksumWithMetadata(row.Checksum, ArrayID, RowNum, len(Data))`. -/
def verifyRowStep (row : Row) (st : SState) : SState × Except ProgError Unit :=
  match BuildVerifyRowCmd row.ArrayID row.RowNum with
  | .error m => (st, .error (.buildError m))
  | .ok cmd =>
    match roundTrip "verify row" cmd st with
    | (st1, .error e) => (st1, .error e)
    | (st1, .ok data) =>
      match ParseVerifyRowResponse data with
      | .error e => (st1, .error (.decodeFailure e))
      | .ok deviceChecksum =>
        if deviceChecksum ≠ CalculateRowChecksumWithMetadata row.Checksum row.ArrayID
            row.RowNum row.Data.length then
          (st1, .error (.checksumMismatchError row.RowNum
            (CalculateRowChecksumWithMetadata row.Checksum row.ArrayID row.RowNum
              row.Data.length) deviceChecksum))
        else (st1, .ok ())

/-- `Programmer.VerifyChecksum`: round-trip VerifyChecksum, decode the
boolean, fail `VerificationError` when the application checksum is
invalid. -/
def VerifyChecksumStep (st : SState) : SState × Except ProgError Bool :=
  match BuildVerifyChecksumCmd with
  | .error m => (st, .error (.buildError m))
  | .ok cmd =>
    match roundTrip "verify checksum" cmd st with
    | (st1, .error e) => (st1, .error e)
    | (st1, .ok data) =>
      match ParseVerifyChecksumResponse data with
      | .error e => (st1, .error (.decodeFailure e))
      | .ok valid =>
        if valid then (st1, .ok true) else (st1, .error .verificationError)

/-- `Programmer.ExitBootloader`: build, fire-and-forget, and DISCARD the
send result (`_ = p.sendCommand(ctx, cmd)`): the device is expected to
reset, so a read/write failure here is swallowed. -/
def ExitBootloaderStep (st : SState) : SState × Except ProgError Unit :=
  match BuildExitBootloaderCmd with
  | .error m => (st, .error (.buildError m))
  | .ok cmd => ((sendCommand cmd st).1, .ok ())

/-- The row range test of `Program` phase 3:
`row.RowNum < flashSize.StartRow || row.RowNum > flashSize.EndRow`. -/
def outOfRange (fs : FlashSize) (r : Row) : Bool :=
  decide (r.RowNum < fs.StartRow) || decide (fs.EndRow < r.RowNum)

/-- `Program` phase 3: when the firmware has at least one row, query the
flash size for the FIRST row's array id and abort on the first row outside
`StartRow..EndRow` before anything is programmed. -/
def flashRangeStep (rows : List Row) (st : SState) : SState × Except ProgError Unit :=
  match rows with
  | [] => (st, .ok ())
  | r0 :: _ =>
    match GetFlashSizeStep r0.ArrayID st with
    | (st1, .error e) => (st1, .error e)
    | (st1, .ok fs) =>
      match rows.find? (outOfRange fs) with
      | some r => (st1, .error (.rowOutOfRange r.ArrayID r.RowNum fs.StartRow fs.EndRow))
      | none => (st1, .ok ())

/-- `Program` phase 4: program each row in file order, verifying after each
when `VerifyAfterProgram` is set.  The context is modelled as never
cancelled. -/
def programRowsLoop (cfg : Config) (rows : List Row) (st : SState) :
    SState × Except ProgError Unit :=
  match rows with
  | [] => (st, .ok ())
  | r :: rest =>
    match programRowStep cfg r st with
    | (st1, .error e) => (st1, .error e)
    | (st1, .ok _) =>
      if cfg.VerifyAfterProgram then
        match verifyRowStep r st1 with
        | (st2, .error e) => (st2, .error e)
        | (st2, .ok _) => programRowsLoop cfg rest st2
      else programRowsLoop cfg rest st1

/-- `Programmer.Program`: key check, enter bootloader, silicon-id check,
flash-range check, row programming, application verification, exit. -/
def Program (fw : Firmware) (key : List Nat) (cfg : Config)
    (script : List (Except String (List Nat))) : SState × Except ProgError Unit :=
  if key.length ≠ BootloaderKeySize then
    ({ script := script, sent := [] }, .error .invalidKey)
  else
    match EnterBootloaderStep key { script := script, sent := [] } with
    | (st1, .error e) => (st1, .error e)
    | (st1, .ok deviceInfo) =>
      if deviceInfo.SiliconID ≠ fw.SiliconID then
        (st1, .error (.deviceMismatch fw.SiliconID deviceInfo.SiliconID))
      else
        match flashRangeStep fw.Rows st1 with
        | (st2, .error e) => (st2, .error e)
        | (st2, .ok _) =>
          match programRowsLoop cfg fw.Rows st2 with
          | (st3, .error e) => (st3, .error e)
          | (st3, .ok _) =>
            match VerifyChecksumStep st3 with
            | (st4, .error e) => (st4, .error e)
            | (st4, .ok _) => ExitBootloaderStep st4

/-! ### Trace lemmas for the transport primitives -/

/-- A round-trip interaction appends exactly the command frame to the
trace, whatever the script holds. -/
theorem sendCommandWithResponse_fst_sent (cmd : List Nat) (st : SState) :
    ((sendCommandWithResponse cmd st).1).sent = st.sent ++ [cmd] := by
  unfold sendCommandWithResponse
  cases hs : st.script with
  | nil => rfl
  | cons e rest => rfl

/-- A write-only interaction appends exactly the command frame to the
trace, whatever the script holds. -/
theorem sendCommand_fst_sent (cmd : List Nat) (st : SState) :
    ((sendCommand cmd st).1).sent = st.sent ++ [cmd] := by
  unfold sendCommand
  cases hs : st.script with
  | nil => rfl
  | cons e rest => rfl

/-- `roundTrip` never touches the state beyond its single transport
interaction. -/
theorem roundTrip_fst (op : String) (cmd : List Nat) (st : SState) :
    (roundTrip op cmd st).1 = (sendCommandWithResponse cmd st).1 := by
  unfold roundTrip
  cases hs : sendCommandWithResponse cmd st with
  | mk st1 res =>
    cases res with
    | error e => rfl
    | ok frame =>
      cases hp : ParseResponse frame with
      | error e => simp [hp]
      | ok sd =>
        obtain ⟨s, d⟩ := sd
        by_cases h : s ≠ StatusSuccess
        · simp [hp, h]
        · simp [hp, h]

/-- A `roundTrip` appends exactly the command frame to the trace. -/
theorem roundTrip_fst_sent (op : String) (cmd : List Nat) (st : SState) :
    ((roundTrip op cmd st).1).sent = st.sent ++ [cmd] := by
  rw [roundTrip_fst]
  exact sendCommandWithResponse_fst_sent cmd st

/-- When the next transport interaction fails, so does the round trip. -/
theorem roundTrip_error_of_script_error (op : String) (cmd : List Nat) (st : SState)
    (m : String) (rest : List (Except String (List Nat)))
    (hs : st.script = .error m :: rest) :
    (roundTrip op cmd st).2 = .error (.transport m) := by
  unfold roundTrip sendCommandWithResponse
  rw [hs]

/-- When the next transport interaction fails, so does the write-only
send. -/
theorem sendCommand_error_of_script_error (cmd : List Nat) (st : SState)
    (m : String) (rest : List (Except String (List Nat)))
    (hs : st.script = .error m :: rest) :
    sendCommand cmd st = ({ script := rest, sent := st.sent ++ [cmd] }, .error (.transport m)) := by
  unfold sendCommand
  rw [hs]

/-! ### Builder output shapes -/

theorem BuildEnterBootloaderCmd_ok {key cmd : List Nat}
    (h : BuildEnterBootloaderCmd key = .ok cmd) :
    cmd = mkCmdFrame CmdEnterBootloader key ∧ key.length = 6 := by
  unfold BuildEnterBootloaderCmd at h
  by_cases hk : key.length = BootloaderKeySize
  · rw [if_neg (not_not_intro hk)] at h
    cases h
    exact ⟨rfl, hk⟩
  · rw [if_pos hk] at h
    cases h

theorem BuildGetFlashSizeCmd_ok (arrayID : Nat) :
    BuildGetFlashSizeCmd arrayID = .ok (mkCmdFrame CmdGetFlashSize [arrayID]) := rfl

/-- The command byte of every built frame sits at index 1, after SOP. -/
theorem mkCmdFrame_byteAt_one (cmd : Nat) (payload : List Nat) :
    byteAt (mkCmdFrame cmd payload) 1 = cmd := rfl

/-! ### Step-level success lemmas -/

/-- A successful EnterBootloader step appends exactly the EnterBootloader
frame. -/
theorem EnterBootloaderStep_ok_sent {key : List Nat} {st st1 : SState} {info : DeviceInfo}
    (h : EnterBootloaderStep key st = (st1, .ok info)) :
    st1.sent = st.sent ++ [mkCmdFrame CmdEnterBootloader key] ∧ key.length = 6 := by
  unfold EnterBootloaderStep at h
  cases hb : BuildEnterBootloaderCmd key with
  | error m => rw [hb] at h; cases h
  | ok cmd =>
    rw [hb] at h
    dsimp only at h
    obtain ⟨hcmd, hklen⟩ := BuildEnterBootloaderCmd_ok hb
    cases hr : roundTrip "enter bootloader" cmd st with
    | mk str res =>
      rw [hr] at h
      cases res with
      | error e => simp at h
      | ok data =>
        dsimp only at h
        cases hd : ParseEnterBootloaderResponse data with
        | error e => rw [hd] at h; simp at h
        | ok info2 =>
          rw [hd] at h
          simp at h
          obtain ⟨h1, h2⟩ := h
          have hsent := roundTrip_fst_sent "enter bootloader" cmd st
          rw [hr] at hsent
          rw [← h1, hsent, hcmd]
          exact ⟨rfl, hklen⟩

/-- A successful GetFlashSize step appends exactly the GetFlashSize frame
for the queried array id. -/
theorem GetFlashSizeStep_ok_sent {arrayID : Nat} {st st1 : SState} {fs : FlashSize}
    (h : GetFlashSizeStep arrayID st = (st1, .ok fs)) :
    st1.sent = st.sent ++ [mkCmdFrame CmdGetFlashSize [arrayID]] := by
  unfold GetFlashSizeStep at h
  rw [BuildGetFlashSizeCmd_ok] at h
  dsimp only at h
  cases hr : roundTrip "get flash size" (mkCmdFrame CmdGetFlashSize [arrayID]) st with
  | mk str res =>
    rw [hr] at h
    cases res with
    | error e => simp at h
    | ok data =>
      dsimp only at h
      cases hd : ParseGetFlashSizeResponse data with
      | error e => rw [hd] at h; simp at h
      | ok fs2 =>
        rw [hd] at h
        simp at h
        obtain ⟨h1, h2⟩ := h
        have hsent := roundTrip_fst_sent "get flash size" (mkCmdFrame CmdGetFlashSize [arrayID]) st
        rw [hr] at hsent
        rw [← h1]
        exact hsent

/-! ## C4: device mismatch aborts before any further command -/

/-- C4.  When the Entering phase decodes a `DeviceInfo` whose silicon id
differs from the firmware's, `Program` aborts with `DeviceMismatchError`
carrying the expected (firmware) and actual (device) ids, and the
transport trace holds exactly the EnterBootloader frame: no GetFlashSize,
SendData or ProgramRow command is ever sent during that call. -/
theorem Program_aborts_on_device_mismatch
    (fw : Firmware) (key : List Nat) (cfg : Config)
    (script : List (Except String (List Nat))) (st1 : SState) (info : DeviceInfo)
    (henter : EnterBootloaderStep key { script := script, sent := [] } = (st1, .ok info))
    (hmis : info.SiliconID ≠ fw.SiliconID) :
    Program fw key cfg script = (st1, .error (.deviceMismatch fw.SiliconID info.SiliconID)) ∧
    st1.sent = [mkCmdFrame CmdEnterBootloader key] ∧
    ∀ f ∈ st1.sent,
      byteAt f 1 ≠ CmdGetFlashSize ∧ byteAt f 1 ≠ CmdSendData ∧ byteAt f 1 ≠ CmdProgramRow := by
  obtain ⟨hsent, hklen⟩ := EnterBootloaderStep_ok_sent henter
  rw [List.nil_append] at hsent
  have hklen' : key.length = BootloaderKeySize := hklen
  have hprog : Program fw key cfg script =
      (st1, .error (.deviceMismatch fw.SiliconID info.SiliconID)) := by
    unfold Program
    rw [if_neg (not_not_intro hklen'), henter]
    dsimp only
    rw [if_pos hmis]
  refine ⟨hprog, hsent, ?_⟩
  intro f hf
  rw [hsent, List.mem_singleton] at hf
  subst hf
  rw [mkCmdFrame_byteAt_one]
  refine ⟨by decide, by decide, by decide⟩

/-- Witness for C4, the spec's scenario 3: the device reports silicon id
0x1E9602AA while the firmware declares 0x12345678; the call aborts with
the device-mismatch error after sending only the EnterBootloader frame. -/
theorem Program_aborts_on_device_mismatch_witness :
    Program
      { SiliconID := 0x12345678, SiliconRev := 0, ChecksumType := 0,
        Rows := [{ ArrayID := 0, RowNum := 1, Size := 4, Data := [1, 2, 3, 4],
                   Checksum := 0xF2 }] }
      [10, 27, 44, 61, 78, 95] defaultConfig
      [.ok (mkCmdFrame 0 [0xAA, 0x02, 0x96, 0x1E, 0, 0, 0, 0])] =
    ({ script := [], sent := [mkCmdFrame CmdEnterBootloader [10, 27, 44, 61, 78, 95]] },
      .error (.deviceMismatch 0x12345678 0x1E9602AA)) ∧
    ({ script := [], sent := [mkCmdFrame CmdEnterBootloader [10, 27, 44, 61, 78, 95]] } :
        SState).sent = [mkCmdFrame CmdEnterBootloader [10, 27, 44, 61, 78, 95]] ∧
    ∀ f ∈ ({ script := [], sent := [mkCmdFrame CmdEnterBootloader [10, 27, 44, 61, 78, 95]] } :
        SState).sent,
      byteAt f 1 ≠ CmdGetFlashSize ∧ byteAt f 1 ≠ CmdSendData ∧ byteAt f 1 ≠ CmdProgramRow :=
  Program_aborts_on_device_mismatch
    { SiliconID := 0x12345678, SiliconRev := 0, ChecksumType := 0,
      Rows := [{ ArrayID := 0, RowNum := 1, Size := 4, Data := [1, 2, 3, 4],
                 Checksum := 0xF2 }] }
    [10, 27, 44, 61, 78, 95] defaultConfig
    [.ok (mkCmdFrame 0 [0xAA, 0x02, 0x96, 0x1E, 0, 0, 0, 0])]
    { script := [], sent := [mkCmdFrame CmdEnterBootloader [10, 27, 44, 61, 78, 95]] }
    { SiliconID := 0x1E9602AA, SiliconRev := 0, BootloaderVer := (0, 0, 0) }
    (by decide) (by decide)

/-! ## C5: a row out of the reported flash range aborts before programming -/

/-- C5.  With at least one firmware row, `Program` queries GetFlashSize for
the FIRST row's array id; if any row of the whole firmware falls outside
`StartRow..EndRow`, the call aborts with `RowOutOfRangeError` carrying the
first such row's number and array id and the range bounds, and the trace
holds exactly the EnterBootloader and GetFlashSize frames — no SendData or
ProgramRow was sent for any row. -/
theorem Program_aborts_on_row_out_of_range
    (fw : Firmware) (key : List Nat) (cfg : Config)
    (script : List (Except String (List Nat))) (st1 st2 : SState)
    (info : DeviceInfo) (fs : FlashSize) (r0 rbad : Row) (rows' : List Row)
    (hrows : fw.Rows = r0 :: rows')
    (henter : EnterBootloaderStep key { script := script, sent := [] } = (st1, .ok info))
    (hid : info.SiliconID = fw.SiliconID)
    (hfs : GetFlashSizeStep r0.ArrayID st1 = (st2, .ok fs))
    (hbad : fw.Rows.find? (outOfRange fs) = some rbad) :
    Program fw key cfg script =
      (st2, .error (.rowOutOfRange rbad.ArrayID rbad.RowNum fs.StartRow fs.EndRow)) ∧
    st2.sent = [mkCmdFrame CmdEnterBootloader key, mkCmdFrame CmdGetFlashSize [r0.ArrayID]] ∧
    (∀ f ∈ st2.sent, byteAt f 1 ≠ CmdSendData ∧ byteAt f 1 ≠ CmdProgramRow) ∧
    rbad ∈ fw.Rows ∧ outOfRange fs rbad = true := by
  obtain ⟨hsent1, hklen⟩ := EnterBootloaderStep_ok_sent henter
  rw [List.nil_append] at hsent1
  have hsent2 := GetFlashSizeStep_ok_sent hfs
  rw [hsent1] at hsent2
  have hrange : flashRangeStep fw.Rows st1 =
      (st2, .error (.rowOutOfRange rbad.ArrayID rbad.RowNum fs.StartRow fs.EndRow)) := by
    unfold flashRangeStep
    rw [hrows]
    dsimp only
    rw [hfs]
    dsimp only
    rw [hrows] at hbad
    rw [hbad]
  have hklen' : key.length = BootloaderKeySize := hklen
  have hprog : Program fw key cfg script =
      (st2, .error (.rowOutOfRange rbad.ArrayID rbad.RowNum fs.StartRow fs.EndRow)) := by
    unfold Program
    rw [if_neg (not_not_intro hklen'), henter]
    dsimp only
    rw [if_neg (not_not_intro hid), hrange]
  refine ⟨hprog, hsent2, ?_, List.mem_of_find?_eq_some hbad, List.find?_some hbad⟩
  intro f hf
  rw [hsent2] at hf
  rcases List.mem_pair.mp hf with h | h <;> subst h <;>
    rw [mkCmdFrame_byteAt_one] <;> exact ⟨by decide, by decide⟩

/-- Witness for C5, the spec's scenario 4: the second row's number 0x0FFF
lies outside the reported range 0x0000..0x01FF; the call aborts with the
row-out-of-range error after only EnterBootloader and GetFlashSize, even
though the first row was in range. -/
theorem Program_aborts_on_row_out_of_range_witness :
    Program
      { SiliconID := 0x1E9602AA, SiliconRev := 0, ChecksumType := 0,
        Rows := [{ ArrayID := 0, RowNum := 1, Size := 4, Data := [1, 2, 3, 4], Checksum := 0xF2 },
                 { ArrayID := 0, RowNum := 0x0FFF, Size := 4, Data := [5, 6, 7, 8],
                   Checksum := 0 }] }
      [10, 27, 44, 61, 78, 95] defaultConfig
      [.ok (mkCmdFrame 0 [0xAA, 0x02, 0x96, 0x1E, 0, 0, 0, 0]),
       .ok (mkCmdFrame 0 [0, 0, 0xFF, 1])] =
      ({ script := [],
         sent := [mkCmdFrame CmdEnterBootloader [10, 27, 44, 61, 78, 95],
                  mkCmdFrame CmdGetFlashSize [0]] },
        .error (.rowOutOfRange 0 0x0FFF 0 0x01FF)) ∧
    ({ script := [],
       sent := [mkCmdFrame CmdEnterBootloader [10, 27, 44, 61, 78, 95],
                mkCmdFrame CmdGetFlashSize [0]] } : SState).sent =
      [mkCmdFrame CmdEnterBootloader [10, 27, 44, 61, 78, 95],
       mkCmdFrame CmdGetFlashSize [0]] ∧
    (∀ f ∈ ({ script := [],
              sent := [mkCmdFrame CmdEnterBootloader [10, 27, 44, 61, 78, 95],
                       mkCmdFrame CmdGetFlashSize [0]] } : SState).sent,
      byteAt f 1 ≠ CmdSendData ∧ byteAt f 1 ≠ CmdProgramRow) ∧
    ({ ArrayID := 0, RowNum := 0x0FFF, Size := 4, Data := [5, 6, 7, 8], Checksum := 0 } : Row) ∈
      ({ SiliconID := 0x1E9602AA, SiliconRev := 0, ChecksumType := 0,
         Rows := [{ ArrayID := 0, RowNum := 1, Size := 4, Data := [1, 2, 3, 4], Checksum := 0xF2 },
                  { ArrayID := 0, RowNum := 0x0FFF, Size := 4, Data := [5, 6, 7, 8],
                    Checksum := 0 }] } : Firmware).Rows ∧
    outOfRange { StartRow := 0, EndRow := 0x01FF }
      { ArrayID := 0, RowNum := 0x0FFF, Size := 4, Data := [5, 6, 7, 8], Checksum := 0 } = true :=
  Program_aborts_on_row_out_of_range
    { SiliconID := 0x1E9602AA, SiliconRev := 0, ChecksumType := 0,
      Rows := [{ ArrayID := 0, RowNum := 1, Size := 4, Data := [1, 2, 3, 4], Checksum := 0xF2 },
               { ArrayID := 0, RowNum := 0x0FFF, Size := 4, Data := [5, 6, 7, 8], Checksum := 0 }] }
    [10, 27, 44, 61, 78, 95] defaultConfig
    [.ok (mkCmdFrame 0 [0xAA, 0x02, 0x96, 0x1E, 0, 0, 0, 0]),
     .ok (mkCmdFrame 0 [0, 0, 0xFF, 1])]
    { script := [.ok (mkCmdFrame 0 [0, 0, 0xFF, 1])],
      sent := [mkCmdFrame CmdEnterBootloader [10, 27, 44, 61, 78, 95]] }
    { script := [],
      sent := [mkCmdFrame CmdEnterBootloader [10, 27, 44, 61, 78, 95],
               mkCmdFrame CmdGetFlashSize [0]] }
    { SiliconID := 0x1E9602AA, SiliconRev := 0, BootloaderVer := (0, 0, 0) }
    { StartRow := 0, EndRow := 0x01FF }
    { ArrayID := 0, RowNum := 1, Size := 4, Data := [1, 2, 3, 4], Checksum := 0xF2 }
    { ArrayID := 0, RowNum := 0x0FFF, Size := 4, Data := [5, 6, 7, 8], Checksum := 0 }
    [{ ArrayID := 0, RowNum := 0x0FFF, Size := 4, Data := [5, 6, 7, 8], Checksum := 0 }]
    (by decide) (by decide) (by decide) (by decide) (by decide)

/-! ### Error propagation at each step -/

theorem EnterBootloaderStep_error_of_script_error (key : List Nat) (st : SState)
    (m : String) (rest : List (Except String (List Nat))) (hs : st.script = .error m :: rest) :
    ∃ e, (EnterBootloaderStep key st).2 = .error e := by
  unfold EnterBootloaderStep
  cases hb : BuildEnterBootloaderCmd key with
  | error msg => exact ⟨.buildError msg, rfl⟩
  | ok cmd =>
    dsimp only
    have hrt := roundTrip_error_of_script_error "enter bootloader" cmd st m rest hs
    cases hr : roundTrip "enter bootloader" cmd st with
    | mk st1 res =>
      rw [hr] at hrt
      dsimp only at hrt
      subst hrt
      exact ⟨.transport m, rfl⟩

theorem GetFlashSizeStep_error_of_script_error (arrayID : Nat) (st : SState)
    (m : String) (rest : List (Except String (List Nat))) (hs : st.script = .error m :: rest) :
    ∃ e, (GetFlashSizeStep arrayID st).2 = .error e := by
  unfold GetFlashSizeStep
  rw [BuildGetFlashSizeCmd_ok]
  dsimp only
  have hrt := roundTrip_error_of_script_error "get flash size"
    (mkCmdFrame CmdGetFlashSize [arrayID]) st m rest hs
  cases hr : roundTrip "get flash size" (mkCmdFrame CmdGetFlashSize [arrayID]) st with
  | mk st1 res =>
    rw [hr] at hrt
    dsimp only at hrt
    subst hrt
    exact ⟨.transport m, rfl⟩

theorem verifyRowStep_error_of_script_error (row : Row) (st : SState)
    (m : String) (rest : List (Except String (List Nat))) (hs : st.script = .error m :: rest) :
    ∃ e, (verifyRowStep row st).2 = .error e := by
  unfold verifyRowStep BuildVerifyRowCmd
  dsimp only
  have hrt := roundTrip_error_of_script_error "verify row"
    (mkCmdFrame CmdVerifyRow [row.ArrayID, row.RowNum % 256, row.RowNum / 256 % 256]) st m rest hs
  cases hr : roundTrip "verify row"
      (mkCmdFrame CmdVerifyRow [row.ArrayID, row.RowNum % 256, row.RowNum / 256 % 256]) st with
  | mk st1 res =>
    rw [hr] at hrt
    dsimp only at hrt
    subst hrt
    exact ⟨.transport m, rfl⟩

theorem VerifyChecksumStep_error_of_script_error (st : SState)
    (m : String) (rest : List (Except String (List Nat))) (hs : st.script = .error m :: rest) :
    ∃ e, (VerifyChecksumStep st).2 = .error e := by
  unfold VerifyChecksumStep BuildVerifyChecksumCmd
  dsimp only
  have hrt := roundTrip_error_of_script_error "verify checksum"
    (mkCmdFrame CmdVerifyChecksum []) st m rest hs
  cases hr : roundTrip "verify checksum" (mkCmdFrame CmdVerifyChecksum []) st with
  | mk st1 res =>
    rw [hr] at hrt
    dsimp only at hrt
    subst hrt
    exact ⟨.transport m, rfl⟩

/-- One-step behaviour of the chunk loop when the next transport
interaction fails: either the data already fits (nothing consumed) or the
loop aborts with an error. -/
theorem sendChunksLoop_script_error (chunkSize : Int) (data : List Nat) (st : SState)
    (m : String) (rest : List (Except String (List Nat))) (hs : st.script = .error m :: rest) :
    sendChunksLoop chunkSize data st = (st, .ok data) ∨
    ∃ st' e, sendChunksLoop chunkSize data st = (st', .error e) := by
  unfold sendChunksLoop
  by_cases h : chunkSize < (data.length : Int)
  · rw [dif_pos h]
    by_cases hpos : 0 < chunkSize
    · rw [dif_pos hpos]
      right
      unfold sendDataStep
      cases hb : BuildSendDataCmd (data.take chunkSize.toNat) with
      | error msg => exact ⟨st, .buildError msg, rfl⟩
      | ok cmd =>
        dsimp only
        have hsc := sendCommand_error_of_script_error cmd st m rest hs
        rw [hsc]
        exact ⟨{ script := rest, sent := st.sent ++ [cmd] }, .transport m, rfl⟩
    · rw [dif_neg hpos]
      right
      exact ⟨st, .buildError "data cannot be empty", rfl⟩
  · rw [dif_neg h]
    left
    rfl

theorem programRowStep_error_of_script_error (cfg : Config) (row : Row) (st : SState)
    (m : String) (rest : List (Except String (List Nat))) (hs : st.script = .error m :: rest) :
    ∃ e, (programRowStep cfg row st).2 = .error e := by
  unfold programRowStep
  rcases sendChunksLoop_script_error cfg.ChunkSize row.Data st m rest hs with hok | ⟨st', e, herr⟩
  · rw [hok]
    dsimp only
    cases hb : BuildProgramRowCmd row.ArrayID row.RowNum row.Data with
    | error msg => exact ⟨.buildError msg, rfl⟩
    | ok cmd =>
      dsimp only
      have hrt := roundTrip_error_of_script_error "" cmd st m rest hs
      cases hr : roundTrip "" cmd st with
      | mk st2 res =>
        rw [hr] at hrt
        dsimp only at hrt
        subst hrt
        exact ⟨.transport m, rfl⟩
  · rw [herr]
    exact ⟨e, rfl⟩

/-! ## C9: only the Exiting step swallows a transport failure -/

/-- C9.  `ExitBootloader` discards the outcome of its transport interaction
and returns success unconditionally — the exit frame is still sent — so
whenever every phase before Exiting succeeds, `Program` returns success no
matter how the transport behaves at the exit interaction; and at every
other step of the sequence (Entering, RangeChecking, Programming, row
Verifying, application Verifying) a failing transport interaction makes
the step fail, so its error propagates out of `Program` by the sequencer's
abort-on-first-error structure. -/
theorem ExitBootloader_swallows_errors :
    (∀ st : SState, (ExitBootloaderStep st).2 = .ok ()) ∧
    (∀ st : SState,
      ExitBootloaderStep st = ((sendCommand (mkCmdFrame CmdExitBootloader []) st).1, .ok ())) ∧
    (∀ (fw : Firmware) (key : List Nat) (cfg : Config)
        (script : List (Except String (List Nat)))
        (st1 st2 st3 st4 : SState) (info : DeviceInfo) (u1 u2 : Unit) (b : Bool),
      EnterBootloaderStep key { script := script, sent := [] } = (st1, .ok info) →
      info.SiliconID = fw.SiliconID →
      flashRangeStep fw.Rows st1 = (st2, .ok u1) →
      programRowsLoop cfg fw.Rows st2 = (st3, .ok u2) →
      VerifyChecksumStep st3 = (st4, .ok b) →
      (Program fw key cfg script).2 = .ok ()) ∧
    (∀ (st : SState) (m : String) (rest : List (Except String (List Nat))),
      st.script = .error m :: rest →
      (∀ key, ∃ e, (EnterBootloaderStep key st).2 = .error e) ∧
      (∀ arrayID, ∃ e, (GetFlashSizeStep arrayID st).2 = .error e) ∧
      (∀ cfg row, ∃ e, (programRowStep cfg row st).2 = .error e) ∧
      (∀ row, ∃ e, (verifyRowStep row st).2 = .error e) ∧
      (∃ e, (VerifyChecksumStep st).2 = .error e)) := by
  refine ⟨fun st => rfl, fun st => rfl, ?_, ?_⟩
  · intro fw key cfg script st1 st2 st3 st4 info u1 u2 b henter hid hrange hloop hvs
    obtain ⟨hsent1, hklen⟩ := EnterBootloaderStep_ok_sent henter
    have hklen' : key.length = BootloaderKeySize := hklen
    unfold Program
    rw [if_neg (not_not_intro hklen'), henter]
    dsimp only
    rw [if_neg (not_not_intro hid), hrange]
    dsimp only
    rw [hloop]
    dsimp only
    rw [hvs]
    rfl
  · intro st m rest hs
    exact ⟨fun key => EnterBootloaderStep_error_of_script_error key st m rest hs,
      fun arrayID => GetFlashSizeStep_error_of_script_error arrayID st m rest hs,
      fun cfg row => programRowStep_error_of_script_error cfg row st m rest hs,
      fun row => verifyRowStep_error_of_script_error row st m rest hs,
      VerifyChecksumStep_error_of_script_error st m rest hs⟩

/-- Witness for C9: on a transport whose next interaction fails, the exit
step still succeeds while the application-verify step fails. -/
theorem ExitBootloader_swallows_errors_witness :
    (ExitBootloaderStep { script := [.error "read failed"], sent := [] }).2 = .ok () ∧
    (Program { SiliconID := 0x1E9602AA, SiliconRev := 0, ChecksumType := 0, Rows := [] }
      [10, 27, 44, 61, 78, 95] defaultConfig
      [.ok (mkCmdFrame 0 [0xAA, 0x02, 0x96, 0x1E, 0, 0, 0, 0]),
       .ok (mkCmdFrame 0 [1]),
       .error "read failed"]).2 = .ok () ∧
    (∃ e, (VerifyChecksumStep { script := [.error "read failed"], sent := [] }).2 = .error e) ∧
    (∃ e, (EnterBootloaderStep [10, 27, 44, 61, 78, 95]
      { script := [.error "read failed"], sent := [] }).2 = .error e) :=
  ⟨ExitBootloader_swallows_errors.1 { script := [.error "read failed"], sent := [] },
   ExitBootloader_swallows_errors.2.2.1
     { SiliconID := 0x1E9602AA, SiliconRev := 0, ChecksumType := 0, Rows := [] }
     [10, 27, 44, 61, 78, 95] defaultConfig
     [.ok (mkCmdFrame 0 [0xAA, 0x02, 0x96, 0x1E, 0, 0, 0, 0]),
      .ok (mkCmdFrame 0 [1]),
      .error "read failed"]
     { script := [.ok (mkCmdFrame 0 [1]), .error "read failed"],
       sent := [mkCmdFrame CmdEnterBootloader [10, 27, 44, 61, 78, 95]] }
     { script := [.ok (mkCmdFrame 0 [1]), .error "read failed"],
       sent := [mkCmdFrame CmdEnterBootloader [10, 27, 44, 61, 78, 95]] }
     { script := [.ok (mkCmdFrame 0 [1]), .error "read failed"],
       sent := [mkCmdFrame CmdEnterBootloader [10, 27, 44, 61, 78, 95]] }
     { script := [.error "read failed"],
       sent := [mkCmdFrame CmdEnterBootloader [10, 27, 44, 61, 78, 95],
                mkCmdFrame CmdVerifyChecksum []] }
     { SiliconID := 0x1E9602AA, SiliconRev := 0, BootloaderVer := (0, 0, 0) }
     () () true
     (by decide) (by decide) (by decide) (by decide) (by decide),
   (ExitBootloader_swallows_errors.2.2.2 { script := [.error "read failed"], sent := [] }
     "read failed" [] rfl).2.2.2.2,
   (ExitBootloader_swallows_errors.2.2.2 { script := [.error "read failed"], sent := [] }
     "read failed" [] rfl).1 [10, 27, 44, 61, 78, 95]⟩

/-! ### Chunk-loop behaviour -/

/-- Data that already fits in one chunk leaves the loop immediately:
nothing is sent, nothing consumed. -/
theorem sendChunksLoop_small (chunkSize : Int) (data : List Nat) (st : SState)
    (h : (data.length : Int) ≤ chunkSize) :
    sendChunksLoop chunkSize data st = (st, .ok data) := by
  unfold sendChunksLoop
  rw [dif_neg (by omega : ¬chunkSize < (data.length : Int))]

/-- Data exactly one byte longer than the chunk size makes the loop send
exactly one SendData frame of `chunkSize` bytes and return the 1-byte
remainder, provided the next transport interaction succeeds. -/
theorem sendChunksLoop_one_chunk (chunkSize : Int) (data : List Nat) (st : SState)
    (raw : List Nat) (rest : List (Except String (List Nat)))
    (hs : st.script = .ok raw :: rest)
    (h1 : 1 ≤ chunkSize) (h2 : chunkSize ≤ 256)
    (hlen : (data.length : Int) = chunkSize + 1) :
    sendChunksLoop chunkSize data st =
      ({ script := rest,
         sent := st.sent ++ [mkCmdFrame CmdSendData (data.take chunkSize.toNat)] },
        .ok (data.drop chunkSize.toNat)) := by
  have htake : (data.take chunkSize.toNat).length = chunkSize.toNat := by
    rw [List.length_take]
    omega
  have hbuild : BuildSendDataCmd (data.take chunkSize.toNat) =
      .ok (mkCmdFrame CmdSendData (data.take chunkSize.toNat)) := by
    unfold BuildSendDataCmd
    have hc1 : ¬((data.take chunkSize.toNat).length = 0) := by
      rw [htake]
      omega
    have hc2 : ¬(MaxDataSize < (data.take chunkSize.toNat).length) := by
      rw [htake]
      unfold MaxDataSize
      omega
    rw [if_neg hc1, if_neg hc2]
  have hstep : sendDataStep (data.take chunkSize.toNat) st =
      ({ script := rest,
         sent := st.sent ++ [mkCmdFrame CmdSendData (data.take chunkSize.toNat)] }, .ok ()) := by
    unfold sendDataStep
    rw [hbuild]
    unfold sendCommand
    rw [hs]
  unfold sendChunksLoop
  rw [dif_pos (by omega : chunkSize < (data.length : Int)),
    dif_pos (by omega : 0 < chunkSize), hstep]
  dsimp only
  exact sendChunksLoop_small chunkSize _ _ (by rw [List.length_drop]; omega)

/-! ## C6: chunking boundaries of `programRow` -/

/-- C6 (falsified at a concrete input).  A row with EMPTY data — whose
length 0 is well below the chunk size — sends NO ProgramRow command at
all: `BuildProgramRowCmd` rejects empty data before anything is written,
so the trace stays empty and the step errors. -/
theorem programRow_empty_data_counterexample :
    programRowStep defaultConfig
      { ArrayID := 0, RowNum := 0, Size := 0, Data := [], Checksum := 0 }
      { script := [], sent := [] } =
      ({ script := [], sent := [] }, .error (.buildError "data cannot be empty")) := by
  unfold programRowStep
  rw [sendChunksLoop_small _ _ _ (by decide)]
  rfl

/-- C6 (amended: the one-ProgramRow case needs non-empty row data).  For a
chunk size in the configured range 1..256: a row whose non-empty data is
at most `chunkSize` bytes sends zero SendData frames and exactly one
ProgramRow frame carrying the full data (whatever the transport answers),
and a row exactly one byte longer sends exactly one SendData frame of
`chunkSize` bytes followed by one ProgramRow frame carrying the remaining
single byte. -/
theorem programRow_chunking (cfg : Config) (row : Row) (st : SState)
    (h1 : 1 ≤ cfg.ChunkSize) (h2 : cfg.ChunkSize ≤ 256) :
    (row.Data ≠ [] → (row.Data.length : Int) ≤ cfg.ChunkSize →
      ((programRowStep cfg row st).1).sent =
        st.sent ++ [mkCmdFrame CmdProgramRow
          ([row.ArrayID, row.RowNum % 256, row.RowNum / 256 % 256] ++ row.Data)]) ∧
    (∀ raw rest, st.script = .ok raw :: rest →
      (row.Data.length : Int) = cfg.ChunkSize + 1 →
      ((programRowStep cfg row st).1).sent =
        st.sent ++ [mkCmdFrame CmdSendData (row.Data.take cfg.ChunkSize.toNat),
          mkCmdFrame CmdProgramRow ([row.ArrayID, row.RowNum % 256, row.RowNum / 256 % 256] ++
            row.Data.drop cfg.ChunkSize.toNat)] ∧
      (row.Data.take cfg.ChunkSize.toNat).length = cfg.ChunkSize.toNat ∧
      (row.Data.drop cfg.ChunkSize.toNat).length = 1) := by
  constructor
  · intro hne hle
    unfold programRowStep
    rw [sendChunksLoop_small cfg.ChunkSize row.Data st hle]
    dsimp only
    have hlen0 : ¬(row.Data.length = 0) := fun h0 => hne (List.length_eq_zero.mp h0)
    have hlen256 : ¬(MaxDataSize < row.Data.length) := by
      unfold MaxDataSize
      omega
    have hbuild : BuildProgramRowCmd row.ArrayID row.RowNum row.Data =
        .ok (mkCmdFrame CmdProgramRow
          ([row.ArrayID, row.RowNum % 256, row.RowNum / 256 % 256] ++ row.Data)) := by
      unfold BuildProgramRowCmd
      rw [if_neg hlen0, if_neg hlen256]
    rw [hbuild]
    dsimp only
    cases hr : roundTrip ""
        (mkCmdFrame CmdProgramRow
          ([row.ArrayID, row.RowNum % 256, row.RowNum / 256 % 256] ++ row.Data)) st with
    | mk st2 res =>
      have hsent := roundTrip_fst_sent ""
        (mkCmdFrame CmdProgramRow
          ([row.ArrayID, row.RowNum % 256, row.RowNum / 256 % 256] ++ row.Data)) st
      rw [hr] at hsent
      cases res <;> exact hsent
  · intro raw rest hs hlen
    unfold programRowStep
    rw [sendChunksLoop_one_chunk cfg.ChunkSize row.Data st raw rest hs h1 h2 hlen]
    dsimp only
    have htake : (row.Data.take cfg.ChunkSize.toNat).length = cfg.ChunkSize.toNat := by
      rw [List.length_take]
      omega
    have hdrop : (row.Data.drop cfg.ChunkSize.toNat).length = 1 := by
      rw [List.length_drop]
      omega
    have hbuild : BuildProgramRowCmd row.ArrayID row.RowNum
        (row.Data.drop cfg.ChunkSize.toNat) =
        .ok (mkCmdFrame CmdProgramRow
          ([row.ArrayID, row.RowNum % 256, row.RowNum / 256 % 256] ++
            row.Data.drop cfg.ChunkSize.toNat)) := by
      unfold BuildProgramRowCmd
      rw [if_neg (by rw [hdrop]; omega), if_neg (by rw [hdrop]; unfold MaxDataSize; omega)]
    rw [hbuild]
    dsimp only
    cases hr : roundTrip ""
        (mkCmdFrame CmdProgramRow
          ([row.ArrayID, row.RowNum % 256, row.RowNum / 256 % 256] ++
            row.Data.drop cfg.ChunkSize.toNat))
        { script := rest,
          sent := st.sent ++ [mkCmdFrame CmdSendData (row.Data.take cfg.ChunkSize.toNat)] } with
    | mk st2 res =>
      have hsent := roundTrip_fst_sent ""
        (mkCmdFrame CmdProgramRow
          ([row.ArrayID, row.RowNum % 256, row.RowNum / 256 % 256] ++
            row.Data.drop cfg.ChunkSize.toNat))
        { script := rest,
          sent := st.sent ++ [mkCmdFrame CmdSendData (row.Data.take cfg.ChunkSize.toNat)] }
      rw [hr] at hsent
      refine ⟨?_, htake, hdrop⟩
      cases res <;>
        simpa [List.append_assoc] using hsent

/-- Witness for the amended C6 at chunk size 57: a 4-byte row produces one
ProgramRow only, and a 58-byte row produces one 57-byte SendData followed
by a 1-byte ProgramRow. -/
theorem programRow_chunking_witness :
    ((programRowStep defaultConfig
        { ArrayID := 0, RowNum := 0, Size := 4, Data := [1, 2, 3, 4], Checksum := 0xF2 }
        { script := [], sent := [] }).1).sent =
      [] ++ [mkCmdFrame CmdProgramRow ([0, 0 % 256, 0 / 256 % 256] ++ [1, 2, 3, 4])] ∧
    ((programRowStep defaultConfig
        { ArrayID := 0, RowNum := 0, Size := 58, Data := List.replicate 58 7, Checksum := 0 }
        { script := [.ok [0]], sent := [] }).1).sent =
      [] ++ [mkCmdFrame CmdSendData ((List.replicate 58 7).take (57 : Int).toNat),
        mkCmdFrame CmdProgramRow ([0, 0 % 256, 0 / 256 % 256] ++
          (List.replicate 58 7).drop (57 : Int).toNat)] ∧
    ((List.replicate 58 7).take (57 : Int).toNat).length = (57 : Int).toNat ∧
    ((List.replicate 58 7).drop (57 : Int).toNat).length = 1 :=
  ⟨(programRow_chunking defaultConfig
      { ArrayID := 0, RowNum := 0, Size := 4, Data := [1, 2, 3, 4], Checksum := 0xF2 }
      { script := [], sent := [] } (by decide) (by decide)).1 (by decide) (by decide),
   (programRow_chunking defaultConfig
      { ArrayID := 0, RowNum := 0, Size := 58, Data := List.replicate 58 7, Checksum := 0 }
      { script := [.ok [0]], sent := [] } (by decide) (by decide)).2 [0] [] rfl (by decide)⟩
